import Mathlib

/-!
Shallow embedding of `src/file_ops.py`, a utility that concatenates CSV
files into one in-memory table and re-partitions it into per-(year, month)
CSV files.

Modelling conventions:
* A pandas `DataFrame` is a list of column names plus a list of rows of
  cells (`Value`).  Cells loaded from CSV are strings; the derived
  `year`/`month` columns added by the partitioner hold integers.
* `df.to_csv(..., quoting=csv.QUOTE_ALL, index=False)` is modelled by
  `toCsvString`: every field is double-quoted with internal quotes doubled,
  fields are comma-separated, records end with a newline.
* `csv.reader` row counting (`sum(1 for line in csv_reader)`) is modelled by
  `countRecords`, a character scanner that counts newlines occurring outside
  quoted fields; quote characters toggle the in-quotes state, so doubled
  quotes inside a quoted field leave the state unchanged, exactly as a CSV
  record counter behaves on the writer's output.
* A flat filesystem (file contents by path) is `FS`; mutation is modelled by
  returning the updated `FS`.  Python exceptions are modelled with `Except`.
-/

namespace FileOps

/-- A cell of a dataframe: strings for data read from CSV, integers for the
derived `year` and `month` columns the partitioner assigns. -/
inductive Value where
  | str (s : String)
  | int (i : Int)
deriving DecidableEq, Repr

/-- How a cell prints when serialized by `to_csv`. -/
def Value.render : Value → String
  | .str s => s
  | .int i => toString i

/-- A pandas DataFrame: ordered column names and ordered rows of cells.
All rows are expected to have one cell per column. -/
structure DataFrame where
  cols : List String
  rows : List (List Value)
deriving DecidableEq, Repr

/-! ### CSV serialization (`DataFrame.to_csv` with `quoting=csv.QUOTE_ALL`) -/

/-- CSV escaping inside a quoted field: every `"` becomes `""`
(pandas/csv default `doublequote=True`). -/
def escapeQuotes : List Char → List Char
  | [] => []
  | c :: cs => if c = '"' then '"' :: '"' :: escapeQuotes cs else c :: escapeQuotes cs

/-- A field serialized under `QUOTE_ALL`: surrounding double quotes with the
content quote-escaped. -/
def quoteField (s : String) : List Char :=
  '"' :: (escapeQuotes s.data ++ ['"'])

/-- The comma-separated quoted fields of one CSV record, without the final
newline. -/
def recordBody : List String → List Char
  | [] => []
  | [f] => quoteField f
  | f :: fs => quoteField f ++ ',' :: recordBody fs

/-- One CSV record: comma-separated quoted fields terminated by a newline. -/
def serializeRecord (fields : List String) : List Char :=
  recordBody fields ++ ['\n']

/-- A whole CSV file: the concatenation of its records. -/
def serializeRecords (recs : List (List String)) : String :=
  String.mk ((recs.map serializeRecord).flatten)

/-- Model of `df.to_csv(..., header=header, index=False, quoting=csv.QUOTE_ALL)`:
the header record (when requested) followed by one record per row. -/
def toCsvString (df : DataFrame) (header : Bool) : String :=
  serializeRecords ((if header then [df.cols] else []) ++ df.rows.map (fun r => r.map Value.render))

/-! ### CSV record counting (`sum(1 for line in csv.reader(f))`) -/

/-- Record counter state machine: scans characters, tracking whether the
position is inside a quoted field.  A `"` toggles the state (so an escaped
`""` toggles twice and stays inside); a newline outside quotes ends one
record.  On the writer's output, which is empty or newline-terminated, this
is exactly the number of records `csv.reader` yields. -/
def countRecAux : List Char → Bool → Nat
  | [], _ => 0
  | c :: cs, inQ =>
    if c = '"' then countRecAux cs (!inQ)
    else if c = '\n' ∧ inQ = false then countRecAux cs inQ + 1
    else countRecAux cs inQ

/-- Number of CSV records in a file's text. -/
def countRecords (s : String) : Nat := countRecAux s.data false

/-! ### Filesystem and the single-file writer (`create_csv_from_dataframe`) -/

/-- A flat filesystem: file contents by path. -/
def FS := String → Option String

/-- Model of `os.remove(p)`: the path no longer exists afterwards. -/
def os_remove (fsf : FS) (p : String) : FS :=
  fun q => if q = p then none else fsf q

/-- Opening `p` in append mode (`mode='a'`) and writing `text`: the new
content is the old content (empty when the file does not exist) with `text`
appended. -/
def appendWrite (fsf : FS) (p : String) (text : String) : FS :=
  fun q => if q = p then some (((fsf p).getD "") ++ text) else fsf q

/-- The writer's file mutation: `if os.path.isfile(out_file): os.remove(out_file)`
followed by `df.to_csv(out_file, header=header, index=False, mode='a',
quoting=csv.QUOTE_ALL, encoding='utf8')`. -/
def writerFS (df : DataFrame) (out_file : String) (header : Bool) (fsf : FS) : FS :=
  appendWrite (if (fsf out_file).isSome then os_remove fsf out_file else fsf) out_file
    (toCsvString df header)

/-- Embedding of `create_csv_from_dataframe(df, out_file, header=True)` from
`src/file_ops.py`: record the dataframe's row count, delete the destination
if it exists, write the dataframe via `to_csv` (append mode onto the now
absent file), then re-read the file with `csv.reader`, count its records
minus one for the header, and assert that this equals the row count.  The
`AssertionError` of a failed `assert` is the `.error` case. -/
def create_csv_from_dataframe (df : DataFrame) (out_file : String) (header : Bool) (fsf : FS) :
    Except String FS :=
  let df_row_count : Int := df.rows.length
  let fs2 : FS := writerFS df out_file header fsf
  let csv_row_count : Int := (countRecords ((fs2 out_file).getD "") : Int) - 1
  if df_row_count = csv_row_count then .ok fs2
  else .error "Error: Dataframe and .csv row counts do not match!"

/-! ### CSV parsing and the loader (`create_dataframe_from_csv`) -/

inductive LoadError where
  | fileNotFound (p : String)
  | emptyData (p : String)
  | noObjectsToConcatenate
  | schemaMismatch
deriving DecidableEq, Repr

/-- CSV tokenizer: splits a file's characters into records of fields,
honouring quoting (`""` inside a quoted field is a literal quote).
Arguments: remaining input, in-quotes state, current field (reversed),
current record's completed fields (reversed), completed records (reversed). -/
def parseCsvAux : List Char → Bool → List Char → List (List Char) → List (List (List Char)) →
    List (List (List Char))
  | [], _, field, rec, recs =>
    if field.isEmpty && rec.isEmpty then recs.reverse
    else ((field.reverse :: rec).reverse :: recs).reverse
  | '"' :: '"' :: cs, true, field, rec, recs => parseCsvAux cs true ('"' :: field) rec recs
  | '"' :: cs, true, field, rec, recs => parseCsvAux cs false field rec recs
  | '"' :: cs, false, field, rec, recs => parseCsvAux cs true field rec recs
  | ',' :: cs, false, field, rec, recs => parseCsvAux cs false [] (field.reverse :: rec) recs
  | '\n' :: cs, false, field, rec, recs => parseCsvAux cs false [] [] ((field.reverse :: rec).reverse :: recs)
  | c :: cs, inQ, field, rec, recs => parseCsvAux cs inQ (c :: field) rec recs

/-- Model of `pd.read_csv(p, header=0, skip_blank_lines=True, encoding='utf8')`:
tokenize the file, drop blank records, take the first record as the column
names and the rest as string-valued rows.  A missing file raises
`FileNotFoundError` and a file with no records raises `EmptyDataError`.
(pandas dtype inference is not modelled: all cells stay strings.) -/
def read_csv (fsf : FS) (p : String) : Except LoadError DataFrame :=
  match fsf p with
  | none => .error (.fileNotFound p)
  | some s =>
    match (parseCsvAux s.data false [] [] []).filter (fun r => !(r.isEmpty || r == [[]])) with
    | [] => .error (.emptyData p)
    | header :: rows =>
      .ok { cols := header.map (fun f => String.mk f),
            rows := rows.map (fun r => r.map (fun f => Value.str (String.mk f))) }

/-- Fold step of `pd.concat`: frames with equal columns are appended in
order.  (pandas would outer-join unequal column sets; no claim depends on
that branch and §4.3 of the spec accepts failing fast on schema mismatch.) -/
def pdConcatGo : DataFrame → List DataFrame → Except LoadError DataFrame
  | acc, [] => .ok acc
  | acc, d :: ds =>
    if acc.cols = d.cols then pdConcatGo { cols := acc.cols, rows := acc.rows ++ d.rows } ds
    else .error .schemaMismatch

/-- Model of `pd.concat(dfs, ignore_index=True)`: an empty collection raises
`ValueError: No objects to concatenate`; otherwise the frames are
concatenated in order. -/
def pdConcat : List DataFrame → Except LoadError DataFrame
  | [] => .error .noObjectsToConcatenate
  | d :: ds => pdConcatGo d ds

/-- Embedding of `create_dataframe_from_csv(file_paths)` from `src/file_ops.py`: read
each file with `pd.read_csv` (the generator is consumed by `pd.concat`, so
the first read failure propagates) and concatenate the results; an empty
`file_paths` list reaches `pd.concat` with nothing to concatenate. -/
def create_dataframe_from_csv (fsf : FS) (file_paths : List String) :
    Except LoadError DataFrame :=
  match file_paths.mapM (read_csv fsf) with
  | .error e => .error e
  | .ok dfs => pdConcat dfs

/-! ### Directory walking and `get_file_paths` -/

/-- A filesystem with directories: the existing directory paths and the
files as (directory, filename, content) entries. -/
structure FileSystem where
  dirs : List String
  files : List (String × String × String)
deriving Repr

/-- The filenames directly inside directory `d`. -/
def filesIn (fs : FileSystem) (d : String) : List String :=
  (fs.files.filter (fun e => e.1 == d)).map (fun e => e.2.1)

/-- The first item `os.walk(directory)` yields, or `none` when the walk
yields nothing at all: with the default `onerror=None`, `os.walk` suppresses
the `OSError` for a missing or unreadable root and produces an empty
iterator.  For an existing root the first item describes that directory
itself (its subdirectory and file lists only feed log output, so only the
file list is kept here). -/
def os_walk_first (fs : FileSystem) (directory : String) : Option (List String) :=
  if directory ∈ fs.dirs then some (filesIn fs directory) else none

/-- Glob matching with `*` wildcards (`glob.glob` receives
`os.path.join(root, filter_pattern)`; this program only uses literal
characters and `*` in its patterns). -/
def globMatch (ps cs : List Char) : Bool :=
  match ps, cs with
  | [], [] => true
  | '*' :: ps', [] => globMatch ps' []
  | _ :: _, [] => false
  | [], _ :: _ => false
  | '*' :: ps', c :: cs' => globMatch ps' (c :: cs') || globMatch ('*' :: ps') cs'
  | p :: ps', _c :: cs' => (p == _c) && globMatch ps' cs'
termination_by (cs.length, ps.length)

/-- Model of `glob.glob(os.path.join(root, filter_pattern))`: the files directly in
`root` whose names match the pattern, as full paths. -/
def glob_glob (fs : FileSystem) (root : String) (filter_pattern : String) : List String :=
  ((filesIn fs root).filter (fun name => globMatch filter_pattern.data name.data)).map
    (fun name => root ++ "/" ++ name)

/-- Embedding of `get_file_paths(directory, filter_pattern)` from `src/file_ops.py`: the
`for root, dirs, files in os.walk(directory)` loop returns the glob result
from inside its first iteration; when `os.walk` yields nothing (missing or
unreadable root) the loop body never runs and the function falls off the
end, returning Python's `None`.  The `Except` layer records which exceptions
can escape: none, since `os.walk` suppresses the `OSError` (default
`onerror=None`) and `glob.glob` does not raise. -/
def get_file_paths (fs : FileSystem) (directory : String) (filter_pattern : String) :
    Except String (Option (List String)) :=
  match os_walk_first fs directory with
  | some _files => .ok (some (glob_glob fs directory filter_pattern))
  | none => .ok none

/-! ### Date parsing and the partitioner -/

inductive PartError where
  | missingColumn (c : String)
  | unparseableDate (s : String)
deriving DecidableEq, Repr

/-- Splitting a character list at `'-'` separators (the structure of an ISO
date string). -/
def splitDash : List Char → List (List Char)
  | [] => [[]]
  | c :: cs =>
    if c = '-' then [] :: splitDash cs
    else
      match splitDash cs with
      | [] => [[c]]
      | r :: rs => (c :: r) :: rs

/-- The numeric value of a decimal digit character. -/
def charDigit? (c : Char) : Option Nat :=
  if '0' ≤ c ∧ c ≤ '9' then some (c.toNat - '0'.toNat) else none

/-- Decimal accumulator over digit characters; fails on a non-digit. -/
def digitsAux : List Char → Nat → Option Nat
  | [], acc => some acc
  | c :: cs, acc =>
    match charDigit? c with
    | none => none
    | some d => digitsAux cs (acc * 10 + d)

/-- A non-empty all-digit character list as a natural number. -/
def digitsToNat? (cs : List Char) : Option Nat :=
  if cs.isEmpty then none else digitsAux cs 0

/-- Date parsing as `pd.DatetimeIndex` performs it on the ISO `YYYY-MM-DD`
strings this utility's date columns hold, yielding the calendar year and
month; anything else fails to parse.  Month and day must be in calendar
range. -/
def parseDate (s : String) : Option (Int × Nat) :=
  match splitDash s.data with
  | [y, m, d] =>
    match digitsToNat? y, digitsToNat? m, digitsToNat? d with
    | some yn, some mn, some dn =>
      if 1 ≤ mn ∧ mn ≤ 12 ∧ 1 ≤ dn ∧ dn ≤ 31 then some ((yn : Int), mn) else none
    | _, _, _ => none
  | _ => none

/-- The cell of `row` at column position `idx` (rows are expected to be long
enough; a missing cell renders as the empty string, which never parses as a
date). -/
def cellAt (row : List Value) (idx : Nat) : Value := row.getD idx (.str "")

/-- Per-row (year, month) extraction at a known column position, failing if
any value is unparseable — `pd.DatetimeIndex(df[time_dimension])` parses the
whole column and raises on any bad value. -/
def parseDatesList (idx : Nat) : List (List Value) → Except PartError (List (Int × Nat))
  | [] => .ok []
  | row :: rest =>
    match parseDate ((cellAt row idx).render) with
    | none => .error (.unparseableDate ((cellAt row idx).render))
    | some ym =>
      match parseDatesList idx rest with
      | .error e => .error e
      | .ok yms => .ok (ym :: yms)

/-- The derived keys of `pd.DatetimeIndex(df[time_dimension]).year` and
`.month`: `df[time_dimension]` raises `KeyError` when the column is absent,
and parsing fails when any value is unparseable. -/
def parseDates (df : DataFrame) (time_dimension : String) :
    Except PartError (List (Int × Nat)) :=
  match df.cols.indexOf? time_dimension with
  | none => .error (.missingColumn time_dimension)
  | some idx => parseDatesList idx df.rows

/-- The in-place column assignments `df['year'] = ...; df['month'] = ...`:
the caller's dataframe object gains the two derived columns. -/
def addDerivedColumns (df : DataFrame) (yms : List (Int × Nat)) : DataFrame :=
  { cols := df.cols ++ ["year", "month"],
    rows := (df.rows.zip yms).map (fun p => p.1 ++ [Value.int p.2.1, Value.int (p.2.2 : Int)]) }

/-- Python's format spec `{month:02}`: zero-padded to at least two digits. -/
def pad2 (m : Nat) : String := if m < 10 then "0" ++ toString m else toString m

/-- The f-string `f'.../{filename}_{year}_{month:02}.csv'` building one
partition file's path. -/
def partPath (output_path filename : String) (year : Int) (month : Nat) : String :=
  output_path ++ "/" ++ filename ++ "_" ++ toString year ++ "_" ++ pad2 month ++ ".csv"

/-- Model of `df.loc[(df['year'] == year) & (df['month'] == month)]` restricted to
the original columns (`to_csv(..., columns=cols)`): filter the rows paired
with their derived keys, keeping the original cells. -/
def partitionGroup (rows : List (List Value)) (yms : List (Int × Nat))
    (year : Int) (month : Nat) : List (List Value) :=
  ((rows.zip yms).filter (fun p => p.2.1 == year && p.2.2 == month)).map (fun p => p.1)

/-- The `(year, month)` pairs the two nested `for` loops iterate:
`set(df['year'])` and `set(df['month'])` are the distinct observed values
(modelled as `dedup`; Python's set iteration order is arbitrary and nothing
proved below depends on the order), and the nesting produces their Cartesian
product. -/
def partKeys (yms : List (Int × Nat)) : List (Int × Nat) :=
  List.product (yms.map Prod.fst).dedup (yms.map Prod.snd).dedup

/-- A written partition file: destination path and CSV text. -/
structure OutFile where
  path : String
  content : String
deriving DecidableEq, Repr

/-- One iteration of the partitioner's inner loop: the partition's path and
its CSV content (header on by default, original columns only, `QUOTE_ALL`). -/
def mkPartFile (df : DataFrame) (yms : List (Int × Nat)) (output_path filename : String)
    (year : Int) (month : Nat) : OutFile :=
  { path := partPath output_path filename year month,
    content := toCsvString { cols := df.cols, rows := partitionGroup df.rows yms year month } true }

/-- All the files the nested loops write, in iteration order. -/
def partitionFiles (df : DataFrame) (yms : List (Int × Nat)) (output_path filename : String) :
    List OutFile :=
  (partKeys yms).map (fun p => mkPartFile df yms output_path filename p.1 p.2)

/-- Embedding of `create_partitioned_csvs_from_dataframe(df, output_path, filename,
time_dimension)` from `src/file_ops.py`: capture `cols = df.columns`, derive
every row's year and month (any failure raises before anything is written),
assign the derived columns in place, and write one CSV per (distinct year,
distinct month) pair.  Returns the mutated dataframe and the written
files. -/
def create_partitioned_csvs_from_dataframe (df : DataFrame)
    (output_path filename time_dimension : String) :
    Except PartError (DataFrame × List OutFile) :=
  match parseDates df time_dimension with
  | .error e => .error e
  | .ok yms => .ok (addDerivedColumns df yms, partitionFiles df yms output_path filename)

/-! ### Concrete example tables for the witnesses -/

/-- Three transactions in January and February 2023. -/
def exDf : DataFrame :=
  { cols := ["id", "transaction_date"],
    rows := [[.str "1", .str "2023-01-05"],
             [.str "2", .str "2023-01-20"],
             [.str "3", .str "2023-02-10"]] }

/-- The derived (year, month) keys of `exDf`'s rows. -/
def exYms : List (Int × Nat) := [(2023, 1), (2023, 1), (2023, 2)]

/-- Data spanning 2023-01, 2023-02 and 2024-01: the pair (2024, 2) is in
the Cartesian product of observed years and months but co-occurs in no
row. -/
def exDf2 : DataFrame :=
  { cols := ["id", "transaction_date"],
    rows := [[.str "1", .str "2023-01-05"],
             [.str "2", .str "2023-02-10"],
             [.str "3", .str "2024-01-15"]] }

/-- The derived (year, month) keys of `exDf2`'s rows. -/
def exYms2 : List (Int × Nat) := [(2023, 1), (2023, 2), (2024, 1)]

/-- A table whose second row's date value does not parse. -/
def exBadDf : DataFrame :=
  { cols := ["id", "transaction_date"],
    rows := [[.str "1", .str "2023-01-05"],
             [.str "2", .str "not-a-date"]] }

theorem countRecAux_escapeQuotes (cs rest : List Char) :
    countRecAux (escapeQuotes cs ++ rest) true = countRecAux rest true := by
  induction cs with
  | nil => rfl
  | cons c cs ih =>
    by_cases hc : c = '"'
    · subst hc
      simpa [escapeQuotes, countRecAux] using ih
    · have hn : ¬(c = '\n' ∧ true = false) := by simp
      simp [escapeQuotes, hc, countRecAux, hn, ih]

theorem countRecAux_quoteField (s : String) (rest : List Char) :
    countRecAux (quoteField s ++ rest) false = countRecAux rest false := by
  have h1 : quoteField s ++ rest = '"' :: (escapeQuotes s.data ++ ('"' :: rest)) := by
    simp [quoteField]
  rw [h1]
  have h2 : countRecAux ('"' :: (escapeQuotes s.data ++ ('"' :: rest))) false
      = countRecAux (escapeQuotes s.data ++ ('"' :: rest)) true := by
    simp [countRecAux]
  rw [h2, countRecAux_escapeQuotes]
  simp [countRecAux]

theorem countRecAux_recordBody (fields : List String) (rest : List Char) :
    countRecAux (recordBody fields ++ rest) false = countRecAux rest false := by
  induction fields with
  | nil => rfl
  | cons f fs ih =>
    cases fs with
    | nil => simpa [recordBody] using countRecAux_quoteField f rest
    | cons g gs =>
      have hb : recordBody (f :: g :: gs) = quoteField f ++ ',' :: recordBody (g :: gs) := rfl
      rw [hb, List.append_assoc, countRecAux_quoteField]
      have hc : countRecAux (',' :: (recordBody (g :: gs) ++ rest)) false
          = countRecAux (recordBody (g :: gs) ++ rest) false := by
        simp [countRecAux]
      rw [List.cons_append, hc, ih]

theorem countRecAux_serializeRecord (fields : List String) (rest : List Char) :
    countRecAux (serializeRecord fields ++ rest) false = countRecAux rest false + 1 := by
  have h1 : serializeRecord fields ++ rest = recordBody fields ++ ('\n' :: rest) := by
    simp [serializeRecord]
  rw [h1, countRecAux_recordBody]
  simp [countRecAux]

theorem countRecAux_flatten (recs : List (List String)) (rest : List Char) :
    countRecAux ((recs.map serializeRecord).flatten ++ rest) false
      = recs.length + countRecAux rest false := by
  induction recs with
  | nil => simp
  | cons r rs ih =>
    have h1 : ((r :: rs).map serializeRecord).flatten ++ rest
        = serializeRecord r ++ ((rs.map serializeRecord).flatten ++ rest) := by
      simp
    rw [h1, countRecAux_serializeRecord, ih]
    simp [List.length_cons]
    omega

/-- The record counter recovers exactly the number of serialized records:
full quoting is inverted correctly even when fields contain newlines,
commas or quotes. -/
theorem countRecords_serializeRecords (recs : List (List String)) :
    countRecords (serializeRecords recs) = recs.length := by
  have h := countRecAux_flatten recs []
  simpa [countRecords, serializeRecords, countRecAux] using h

theorem countRecords_toCsvString_header (df : DataFrame) :
    countRecords (toCsvString df true) = df.rows.length + 1 := by
  rw [toCsvString, countRecords_serializeRecords]
  simp

theorem countRecords_toCsvString_no_header (df : DataFrame) :
    countRecords (toCsvString df false) = df.rows.length := by
  rw [toCsvString, countRecords_serializeRecords]
  simp

/-! ### Writer lemmas -/

theorem empty_string_append (s : String) : "" ++ s = s := by
  cases s
  rfl

/-- Whatever was at the destination before, afterwards it holds exactly the
serialized dataframe: the delete-first step makes the append-mode write a
full replacement. -/
theorem writerFS_out (df : DataFrame) (out_file : String) (header : Bool) (fsf : FS) :
    writerFS df out_file header fsf out_file = some (toCsvString df header) := by
  by_cases h : (fsf out_file).isSome
  · simp [writerFS, appendWrite, os_remove, h, empty_string_append]
  · have h0 : fsf out_file = none := Option.not_isSome_iff_eq_none.mp h
    simp [writerFS, appendWrite, h, h0, empty_string_append]

/-- With the header on, the writer's post-write assertion passes and the
writer returns the updated filesystem. -/
theorem create_csv_ok (df : DataFrame) (out_file : String) (fsf : FS) :
    create_csv_from_dataframe df out_file true fsf = .ok (writerFS df out_file true fsf) := by
  simp only [create_csv_from_dataframe]
  rw [writerFS_out, Option.getD_some, countRecords_toCsvString_header]
  rw [if_pos]
  push_cast
  omega

/-- Claim C3: with the single-file writer run header-on, re-reading the
written file and counting its records minus one for the header recovers
exactly the source dataframe's row count, so the post-write assertion never
fires and the writer succeeds. -/
theorem writer_rowcount_invariant (df : DataFrame) (out_file : String) (fsf : FS) :
    ∃ fs2 : FS, create_csv_from_dataframe df out_file true fsf = .ok fs2 ∧
      fs2 out_file = some (toCsvString df true) ∧
      (countRecords (toCsvString df true) : Int) - 1 = (df.rows.length : Int) := by
  refine ⟨writerFS df out_file true fsf, create_csv_ok df out_file fsf, writerFS_out df out_file true fsf, ?_⟩
  rw [countRecords_toCsvString_header]
  push_cast
  omega

/-- Claim C6: running the single-file writer twice on the same dataframe and
destination succeeds both times and leaves byte-for-byte identical content;
the existing destination is deleted first, so the content after either run
is exactly the serialized dataframe, independent of what was there before. -/
theorem writer_idempotent (df : DataFrame) (out_file : String) (fsf : FS) :
    ∃ g1 g2 : FS, create_csv_from_dataframe df out_file true fsf = .ok g1 ∧
      create_csv_from_dataframe df out_file true g1 = .ok g2 ∧
      g1 out_file = some (toCsvString df true) ∧
      g2 out_file = g1 out_file :=
  ⟨writerFS df out_file true fsf, writerFS df out_file true (writerFS df out_file true fsf),
    create_csv_ok df out_file fsf, create_csv_ok df out_file (writerFS df out_file true fsf),
    writerFS_out df out_file true fsf,
    by rw [writerFS_out, writerFS_out]⟩

/-- Claim C10: with the header off, the re-read record count is the row
count, but the check still subtracts one for a header that was never
written, so the assertion fails for every dataframe, empty or not. -/
theorem writer_header_off_asserts (df : DataFrame) (out_file : String) (fsf : FS) :
    ∃ msg, create_csv_from_dataframe df out_file false fsf = .error msg := by
  refine ⟨"Error: Dataframe and .csv row counts do not match!", ?_⟩
  simp only [create_csv_from_dataframe]
  rw [writerFS_out, Option.getD_some, countRecords_toCsvString_no_header, if_neg]
  omega

/-! ### Loader lemmas -/

/-- Claim C5: an empty input file list reaches `pd.concat` with no objects
to concatenate, which raises; the loader fails rather than returning an
empty dataframe. -/
theorem loader_empty_list_fails (fsf : FS) :
    create_dataframe_from_csv fsf [] = .error LoadError.noObjectsToConcatenate := by
  rfl

/-! ### Date-parsing lemmas -/

theorem parseDate_month_range {s : String} {κ : Int × Nat}
    (h : parseDate s = some κ) : 1 ≤ κ.2 ∧ κ.2 ≤ 12 := by
  unfold parseDate at h
  split at h
  · split at h
    · split at h
      · rename_i hcond
        injection h with h'
        subst h'
        exact ⟨hcond.1, hcond.2.1⟩
      · exact Option.noConfusion h
    · exact Option.noConfusion h
  · exact Option.noConfusion h

theorem parseDatesList_length (idx : Nat) (rows : List (List Value))
    (yms : List (Int × Nat)) (h : parseDatesList idx rows = .ok yms) :
    yms.length = rows.length := by
  induction rows generalizing yms with
  | nil =>
    unfold parseDatesList at h
    injection h with h'
    subst h'
    rfl
  | cons row rest ih =>
    unfold parseDatesList at h
    split at h
    · exact Except.noConfusion h
    · split at h
      · exact Except.noConfusion h
      · rename_i ym hym yms' hrest
        injection h with h'
        subst h'
        simp [List.length_cons, ih yms' hrest]

theorem parseDatesList_month_range (idx : Nat) (rows : List (List Value))
    (yms : List (Int × Nat)) (h : parseDatesList idx rows = .ok yms) :
    ∀ κ ∈ yms, 1 ≤ κ.2 ∧ κ.2 ≤ 12 := by
  induction rows generalizing yms with
  | nil =>
    unfold parseDatesList at h
    injection h with h'
    subst h'
    intro κ hκ
    cases hκ
  | cons row rest ih =>
    cases hym : parseDate ((cellAt row idx).render) with
    | none =>
      unfold parseDatesList at h
      rw [hym] at h
      exact Except.noConfusion h
    | some ym =>
      cases hrest : parseDatesList idx rest with
      | error e =>
        unfold parseDatesList at h
        rw [hym, hrest] at h
        exact Except.noConfusion h
      | ok yms' =>
        unfold parseDatesList at h
        rw [hym, hrest] at h
        have h2 : (Except.ok (ym :: yms') : Except PartError (List (Int × Nat))) = Except.ok yms := h
        injection h2 with h'
        subst h'
        intro κ hκ
        rcases List.mem_cons.mp hκ with rfl | hκ'
        · exact parseDate_month_range hym
        · exact ih yms' hrest κ hκ'

theorem parseDatesList_error (idx : Nat) (rows : List (List Value))
    (h : ∃ row ∈ rows, parseDate ((cellAt row idx).render) = none) :
    ∃ e, parseDatesList idx rows = .error e := by
  induction rows with
  | nil =>
    obtain ⟨r, hr, _⟩ := h
    cases hr
  | cons row rest ih =>
    obtain ⟨r, hr, hp⟩ := h
    rcases List.mem_cons.mp hr with rfl | hr'
    · exact ⟨.unparseableDate ((cellAt r idx).render), by simp [parseDatesList, hp]⟩
    · by_cases hhead : parseDate ((cellAt row idx).render) = none
      · exact ⟨.unparseableDate ((cellAt row idx).render), by simp [parseDatesList, hhead]⟩
      · obtain ⟨ym, hym⟩ := Option.ne_none_iff_exists'.mp hhead
        obtain ⟨e, he⟩ := ih ⟨r, hr', hp⟩
        exact ⟨e, by simp [parseDatesList, hym, he]⟩

theorem parseDates_ok_inv (df : DataFrame) (td : String) (yms : List (Int × Nat))
    (h : parseDates df td = .ok yms) :
    ∃ idx, df.cols.indexOf? td = some idx ∧ parseDatesList idx df.rows = .ok yms := by
  unfold parseDates at h
  split at h
  · exact Except.noConfusion h
  · rename_i idx hidx
    exact ⟨idx, hidx, h⟩

theorem create_partitioned_ok_inv (df : DataFrame) (op fn td : String)
    (df2 : DataFrame) (files : List OutFile)
    (h : create_partitioned_csvs_from_dataframe df op fn td = .ok (df2, files)) :
    ∃ yms, parseDates df td = .ok yms ∧ df2 = addDerivedColumns df yms ∧
      files = partitionFiles df yms op fn := by
  unfold create_partitioned_csvs_from_dataframe at h
  split at h
  · exact Except.noConfusion h
  · rename_i yms hyms
    injection h with h'
    exact ⟨yms, hyms, (congrArg Prod.fst h').symm, (congrArg Prod.snd h').symm⟩

/-! ### Grouping by key: exhaustive and non-overlapping -/

theorem flatMap_filter_key_cons {α β : Type*} [BEq β] [LawfulBEq β] (k : α → β)
    (x : α) (xs : List α) (keys : List β) (hnd : keys.Nodup) (hx : k x ∈ keys) :
    (keys.flatMap (fun κ => (x :: xs).filter (fun a => k a == κ))).Perm
      (x :: keys.flatMap (fun κ => xs.filter (fun a => k a == κ))) := by
  induction keys with
  | nil => cases hx
  | cons κ ks ih =>
    rw [List.nodup_cons] at hnd
    obtain ⟨hκ, hndks⟩ := hnd
    rw [List.flatMap_cons, List.flatMap_cons]
    by_cases hxκ : k x = κ
    · have h1 : List.filter (fun a => k a == κ) (x :: xs)
          = x :: List.filter (fun a => k a == κ) xs := by
        rw [List.filter_cons, if_pos (by simp [hxκ])]
      have h2 : ks.flatMap (fun κ2 => List.filter (fun a => k a == κ2) (x :: xs))
          = ks.flatMap (fun κ2 => List.filter (fun a => k a == κ2) xs) := by
        refine List.flatMap_congr ?_
        intro κ2 hκ2
        rw [List.filter_cons, if_neg]
        simp only [beq_iff_eq]
        intro hx2
        exact hκ (hxκ ▸ hx2 ▸ hκ2)
      rw [h1, h2, List.cons_append]
    · have h1 : List.filter (fun a => k a == κ) (x :: xs)
          = List.filter (fun a => k a == κ) xs := by
        rw [List.filter_cons, if_neg]
        simp [hxκ]
      have hx' : k x ∈ ks := by
        rcases List.mem_cons.mp hx with h | h
        · exact absurd h hxκ
        · exact h
      rw [h1]
      exact ((ih hndks hx').append_left _).trans List.perm_middle

theorem flatMap_filter_key_perm {α β : Type*} [BEq β] [LawfulBEq β] (k : α → β)
    (xs : List α) (keys : List β) (hnd : keys.Nodup)
    (hmem : ∀ x ∈ xs, k x ∈ keys) :
    (keys.flatMap (fun κ => xs.filter (fun a => k a == κ))).Perm xs := by
  induction xs with
  | nil => simp
  | cons x xs ih =>
    have hx : k x ∈ keys := hmem x (List.mem_cons_self x xs)
    have h2 := ih (fun a ha => hmem a (List.mem_cons_of_mem x ha))
    exact (flatMap_filter_key_cons k x xs keys hnd hx).trans (h2.cons x)

theorem partKeys_nodup (yms : List (Int × Nat)) : (partKeys yms).Nodup :=
  List.Nodup.product (List.nodup_dedup _) (List.nodup_dedup _)

theorem partitionGroup_eq_map_filter (rows : List (List Value)) (yms : List (Int × Nat))
    (y : Int) (m : Nat) :
    partitionGroup rows yms y m
      = List.map Prod.fst ((rows.zip yms).filter (fun z => z.2 == (y, m))) := rfl

/-! ### Claim theorems for the partitioner -/

/-- Claim C1: when every date parses, the partitioner succeeds; the groups
it writes are keyed by distinct (year, month) pairs, every row of a group
carries exactly that group's derived key, and the concatenation of all the
groups is a permutation of the input rows — each row occurrence lands in
exactly one partition file, the one keyed by its derived (year, month). -/
theorem partition_exhaustive_nonoverlapping (df : DataFrame)
    (output_path filename time_dimension : String) (yms : List (Int × Nat))
    (h : parseDates df time_dimension = .ok yms) :
    create_partitioned_csvs_from_dataframe df output_path filename time_dimension
        = .ok (addDerivedColumns df yms, partitionFiles df yms output_path filename) ∧
    (partKeys yms).Nodup ∧
    ((partKeys yms).flatMap (fun κ => partitionGroup df.rows yms κ.1 κ.2)).Perm df.rows ∧
    (∀ κ ∈ partKeys yms, ∀ r ∈ partitionGroup df.rows yms κ.1 κ.2,
      (r, κ) ∈ df.rows.zip yms) := by
  refine ⟨by simp [create_partitioned_csvs_from_dataframe, h], partKeys_nodup yms, ?_, ?_⟩
  · obtain ⟨idx, _hidx, hlist⟩ := parseDates_ok_inv df _ yms h
    have hlen : yms.length = df.rows.length := parseDatesList_length idx df.rows yms hlist
    have hkeymem : ∀ z ∈ df.rows.zip yms, (fun z : List Value × Int × Nat => z.2) z ∈ partKeys yms := by
      intro z hz
      have h2 := (List.of_mem_zip hz).2
      rcases z with ⟨r, y, m⟩
      simp only [partKeys]
      exact List.mem_product.mpr
        ⟨List.mem_dedup.mpr (List.mem_map_of_mem Prod.fst h2),
         List.mem_dedup.mpr (List.mem_map_of_mem Prod.snd h2)⟩
    have hperm := flatMap_filter_key_perm (fun z : List Value × Int × Nat => z.2)
      (df.rows.zip yms) (partKeys yms) (partKeys_nodup yms) hkeymem
    have hmapped := hperm.map (Prod.fst)
    rw [List.map_fst_zip df.rows yms (le_of_eq hlen.symm)] at hmapped
    have heq : (partKeys yms).flatMap (fun κ => partitionGroup df.rows yms κ.1 κ.2)
        = List.map Prod.fst ((partKeys yms).flatMap
            (fun κ => (df.rows.zip yms).filter (fun z => z.2 == κ))) := by
      rw [List.map_flatMap]
      refine List.flatMap_congr ?_
      intro κ _hκ
      rcases κ with ⟨y, m⟩
      rfl
    rw [heq]
    exact hmapped
  · intro κ hκ r hr
    rcases κ with ⟨y, m⟩
    simp only [partitionGroup, List.mem_map] at hr
    obtain ⟨z, hzfilter, hzr⟩ := hr
    rw [List.mem_filter] at hzfilter
    obtain ⟨hzmem, hpred⟩ := hzfilter
    rcases z with ⟨r', y', m'⟩
    rw [Bool.and_eq_true, beq_iff_eq, beq_iff_eq] at hpred
    obtain ⟨h1, h2⟩ := hpred
    cases hzr
    cases h1
    cases h2
    exact hzmem

/-- Witness for C1: the groups of the three-row example table concatenate
to a permutation of its rows. -/
theorem partition_exhaustive_nonoverlapping_witness :
    ((partKeys exYms).flatMap (fun κ => partitionGroup exDf.rows exYms κ.1 κ.2)).Perm exDf.rows :=
  (partition_exhaustive_nonoverlapping exDf "out" "tx" "transaction_date" exYms (by rfl)).2.2.1

/-- Claim C2: the partitioner writes one file for every pair in the
Cartesian product of the distinct observed years and the distinct observed
months — including pairs that co-occur in no row — and a pair whose matching
subsequence is empty is still written, as a header-only file. -/
theorem partition_cartesian_product (df : DataFrame)
    (output_path filename time_dimension : String) (yms : List (Int × Nat))
    (h : parseDates df time_dimension = .ok yms) :
    create_partitioned_csvs_from_dataframe df output_path filename time_dimension
        = .ok (addDerivedColumns df yms, partitionFiles df yms output_path filename) ∧
    partitionFiles df yms output_path filename
        = (List.product (yms.map Prod.fst).dedup (yms.map Prod.snd).dedup).map
            (fun κ => mkPartFile df yms output_path filename κ.1 κ.2) ∧
    (∀ κ ∈ partKeys yms, partitionGroup df.rows yms κ.1 κ.2 = [] →
      (mkPartFile df yms output_path filename κ.1 κ.2).content = serializeRecords [df.cols]) := by
  refine ⟨by simp [create_partitioned_csvs_from_dataframe, h], rfl, ?_⟩
  intro κ _hκ hempty
  simp [mkPartFile, toCsvString, hempty]

/-- Witness for C2: in `exDf2` the years 2023 and 2024 and the months 1 and
2 are observed, but no row has (2024, 2); its file is still produced, with
only the header record. -/
theorem partition_cartesian_product_witness :
    (mkPartFile exDf2 exYms2 "out" "tx" 2024 2).content = serializeRecords [exDf2.cols] :=
  (partition_cartesian_product exDf2 "out" "tx" "transaction_date" exYms2 (by rfl)).2.2
    ((2024 : Int), 2) (by decide) (by rfl)

/-- Claim C4: if the date column is missing or any row's date value fails
to parse, the whole partitioning operation fails before writing anything:
no partition file is produced, not even for rows that would have parsed. -/
theorem partition_parse_failure_no_output (df : DataFrame)
    (output_path filename time_dimension : String)
    (h : df.cols.indexOf? time_dimension = none ∨
      ∃ idx, df.cols.indexOf? time_dimension = some idx ∧
        ∃ row ∈ df.rows, parseDate ((cellAt row idx).render) = none) :
    ∃ e, create_partitioned_csvs_from_dataframe df output_path filename time_dimension
        = .error e := by
  have herr : ∃ e, parseDates df time_dimension = .error e := by
    rcases h with hmiss | ⟨idx, hidx, hbad⟩
    · exact ⟨.missingColumn time_dimension, by simp [parseDates, hmiss]⟩
    · obtain ⟨e, he⟩ := parseDatesList_error idx df.rows hbad
      exact ⟨e, by simp [parseDates, hidx, he]⟩
  obtain ⟨e, he⟩ := herr
  exact ⟨e, by simp [create_partitioned_csvs_from_dataframe, he]⟩

/-- Witness for C4: a table whose second row holds `"not-a-date"` makes the
whole partitioning call fail. -/
theorem partition_parse_failure_witness :
    ∃ e, create_partitioned_csvs_from_dataframe exBadDf "out" "tx" "transaction_date"
        = .error e :=
  partition_parse_failure_no_output exBadDf "out" "tx" "transaction_date"
    (Or.inr ⟨1, rfl, [Value.str "2", Value.str "not-a-date"], by decide, rfl⟩)

theorem pad2_length_two {m : Nat} (h1 : 1 ≤ m) (h2 : m ≤ 12) : (pad2 m).length = 2 := by
  interval_cases m <;> decide

/-- Claim C7: every file the partitioner writes has path
`output_path/filename_year_month.csv` with the month zero-padded to exactly
two digits. -/
theorem partition_file_naming (df : DataFrame) (op fn td : String)
    (df2 : DataFrame) (files : List OutFile) (f : OutFile)
    (h : create_partitioned_csvs_from_dataframe df op fn td = .ok (df2, files))
    (hf : f ∈ files) :
    ∃ (year : Int) (month : Nat),
      f.path = op ++ "/" ++ fn ++ "_" ++ toString year ++ "_" ++ pad2 month ++ ".csv" ∧
      (pad2 month).length = 2 := by
  obtain ⟨yms, hyms, _, hfiles⟩ := create_partitioned_ok_inv df op fn td df2 files h
  subst hfiles
  simp only [partitionFiles, List.mem_map] at hf
  obtain ⟨κ, hκ, hfe⟩ := hf
  rcases κ with ⟨y, m⟩
  refine ⟨y, m, ?_, ?_⟩
  · rw [← hfe]
    rfl
  · have hm : m ∈ yms.map Prod.snd := by
      simp only [partKeys] at hκ
      exact List.mem_dedup.mp (List.mem_product.mp hκ).2
    obtain ⟨κ', hκ', hsnd⟩ := List.mem_map.mp hm
    obtain ⟨idx, _hidx, hlist⟩ := parseDates_ok_inv df td yms hyms
    have hrange := parseDatesList_month_range idx df.rows yms hlist κ' hκ'
    exact pad2_length_two (hsnd ▸ hrange.1) (hsnd ▸ hrange.2)

/-- Witness for C7 at the first partition file of the example table. -/
theorem partition_file_naming_witness :
    ∃ (year : Int) (month : Nat), (mkPartFile exDf exYms "out" "tx" 2023 1).path
        = "out" ++ "/" ++ "tx" ++ "_" ++ toString year ++ "_" ++ pad2 month ++ ".csv" ∧
      (pad2 month).length = 2 :=
  partition_file_naming exDf "out" "tx" "transaction_date"
    (addDerivedColumns exDf exYms) (partitionFiles exDf exYms "out" "tx")
    (mkPartFile exDf exYms "out" "tx" 2023 1) (by rfl) (by decide)

/-! ### Claim theorems for the file enumerator -/

/-- Claim C8 counterexample: on a filesystem without the requested root
directory, `get_file_paths` raises no filesystem error: `os.walk`
suppresses the `OSError` (default `onerror=None`), the loop body never
runs, and the function returns Python's `None`. -/
theorem enumerator_missing_dir_counterexample :
    get_file_paths { dirs := [], files := [] } "/data" "fact_transactions*.csv" = .ok none ∧
    ¬ ∃ e, get_file_paths { dirs := [], files := [] } "/data" "fact_transactions*.csv"
        = .error e := by
  constructor
  · rfl
  · rintro ⟨e, he⟩
    have h2 : (Except.ok none : Except String (Option (List String))) = .error e := he
    exact Except.noConfusion h2

/-- Claim C8 amended: the enumerator never raises: on an existing root with
no files it returns the empty list, and on a missing root it also does not
fail with a filesystem error — `os.walk` swallows the error and the
function returns `None`. -/
theorem enumerator_empty_and_missing (fs : FileSystem) (directory filter_pattern : String) :
    (∃ r, get_file_paths fs directory filter_pattern = .ok r) ∧
    (directory ∈ fs.dirs → filesIn fs directory = [] →
      get_file_paths fs directory filter_pattern = .ok (some [])) ∧
    (directory ∉ fs.dirs → get_file_paths fs directory filter_pattern = .ok none) := by
  by_cases hd : directory ∈ fs.dirs
  · have hw : os_walk_first fs directory = some (filesIn fs directory) := by
      unfold os_walk_first
      rw [if_pos hd]
    refine ⟨⟨some (glob_glob fs directory filter_pattern), ?_⟩, ?_, ?_⟩
    · unfold get_file_paths
      rw [hw]
    · intro _ hempty
      unfold get_file_paths
      rw [hw]
      unfold glob_glob
      rw [hempty]
      rfl
    · intro hnot
      exact absurd hd hnot
  · have hw : os_walk_first fs directory = none := by
      unfold os_walk_first
      rw [if_neg hd]
    refine ⟨⟨none, ?_⟩, ?_, ?_⟩
    · unfold get_file_paths
      rw [hw]
    · intro hdir _
      exact absurd hdir hd
    · intro _
      unfold get_file_paths
      rw [hw]

/-- Witness for the amended C8 at a concrete filesystem holding one empty
directory. -/
theorem enumerator_empty_and_missing_witness :
    get_file_paths { dirs := ["/data"], files := [] } "/data" "fact*.csv" = .ok (some []) :=
  (enumerator_empty_and_missing { dirs := ["/data"], files := [] } "/data" "fact*.csv").2.1
    (by decide) rfl

/-! ### Claim theorems for the derived columns -/

/-- Claim C9 counterexample: after a successful partitioning call the
caller's dataframe is not left unchanged: the `df['year'] = ...` and
`df['month'] = ...` assignments act on the caller's object in place (no
working copy is made), so the derived columns persist after the call. -/
theorem partition_mutates_caller_counterexample :
    ∃ df2 files, create_partitioned_csvs_from_dataframe exDf "out" "tx" "transaction_date"
        = .ok (df2, files) ∧ df2.cols ≠ exDf.cols := by
  refine ⟨addDerivedColumns exDf exYms, partitionFiles exDf exYms "out" "tx", by rfl, ?_⟩
  decide

/-- Claim C9 amended: the derived `year`/`month` columns do persist in the
caller's dataframe after the call (the assignments mutate it in place), but
every per-partition output file is written with exactly the original column
set, because `to_csv` receives `columns=cols` captured before the
assignments. -/
theorem partition_output_columns (df : DataFrame) (op fn td : String)
    (yms : List (Int × Nat)) (h : parseDates df td = .ok yms) :
    ∃ df2 files, create_partitioned_csvs_from_dataframe df op fn td = .ok (df2, files) ∧
      df2.cols = df.cols ++ ["year", "month"] ∧
      ∀ f ∈ files, ∃ (year : Int) (month : Nat),
        f.content
          = toCsvString { cols := df.cols, rows := partitionGroup df.rows yms year month } true := by
  refine ⟨addDerivedColumns df yms, partitionFiles df yms op fn,
    by simp [create_partitioned_csvs_from_dataframe, h], rfl, ?_⟩
  intro f hf
  simp only [partitionFiles, List.mem_map] at hf
  obtain ⟨κ, _hκ, hfe⟩ := hf
  exact ⟨κ.1, κ.2, by rw [← hfe]; rfl⟩

/-- Witness for the amended C9 at the example table. -/
theorem partition_output_columns_witness :
    ∃ df2 files, create_partitioned_csvs_from_dataframe exDf "out2" "tx" "transaction_date"
        = .ok (df2, files) ∧ df2.cols = exDf.cols ++ ["year", "month"] ∧
      ∀ f ∈ files, ∃ (year : Int) (month : Nat),
        f.content
          = toCsvString { cols := exDf.cols, rows := partitionGroup exDf.rows exYms year month } true :=
  partition_output_columns exDf "out2" "tx" "transaction_date" exYms (by rfl)

end FileOps
